import Mathlib

/-!
Verification of the push-to-talk voice dictation daemon
(`src/lib/core/ptt.py`, class `PushToTalkDaemon`).

The daemon's methods are shallowly embedded as pure Lean functions.
Python strings are modelled as `List Char`; external effects
(subprocess spawning, process termination, the filesystem, the
transcription engine, stdin) are modelled as explicit environment
values describing their observable behaviour, and Python exceptions
that can escape a method are modelled with `Except`.
-/

namespace PTT

/-! ## Python string primitives

Characters stripped by Python's `str.strip()` with no argument. -/

def pyIsSpace (c : Char) : Bool :=
  c = ' ' || c = '\t' || c = '\n' || c = '\r' || c = '\x0b' || c = '\x0c'

/-- `str.lstrip()` -/
def stripLeft (s : List Char) : List Char := s.dropWhile pyIsSpace

/-- `str.rstrip()` -/
def stripRight (s : List Char) : List Char := (s.reverse.dropWhile pyIsSpace).reverse

/-- Python `str.strip()` -/
def pyStrip (s : List Char) : List Char := stripRight (stripLeft s)

/-- Python `str.split('\n')`: always returns a non-empty list of segments. -/
def splitNl : List Char → List (List Char)
  | [] => [[]]
  | c :: cs =>
    if c = '\n' then [] :: splitNl cs
    else
      match splitNl cs with
      | [] => [[c]]
      | l :: ls => (c :: l) :: ls

/-- `lines[-1]` on the (never-empty) result of `splitNl`. -/
def lastSegment (stdout : List Char) : List Char :=
  ((splitNl (pyStrip stdout)).getLast?).getD []

/-- `str.replace('<|endoftext|>', '')`: removes every occurrence,
scanning left to right without re-scanning replaced regions
(ptt.py line 308). -/
def removeEOT : List Char → List Char
  | '<' :: '|' :: 'e' :: 'n' :: 'd' :: 'o' :: 'f' :: 't' :: 'e' :: 'x' :: 't' :: '|' :: '>' :: rest =>
      removeEOT rest
  | c :: cs => c :: removeEOT cs
  | [] => []

/-- The end-of-text sentinel emitted by whisper.cpp. -/
def eotToken : List Char := ['<', '|', 'e', 'n', 'd', 'o', 'f', 't', 'e', 'x', 't', '|', '>']

def isDigitSemi (c : Char) : Bool := c.isDigit || c = ';'

def isAsciiLetter (c : Char) : Bool :=
  ('A' ≤ c && c ≤ 'Z') || ('a' ≤ c && c ≤ 'z')

/-- Match `[0-9;]*m` against the front of the list, returning the
remainder after the `m` on success.  The class `[0-9;]` is disjoint
from `m`, so the regex engine's greedy match with backtracking is
exactly: maximal run of digits/semicolons, then a literal `m`. -/
def matchColorSeq : List Char → Option (List Char)
  | 'm' :: tail => some tail
  | c :: cs => if isDigitSemi c then matchColorSeq cs else none
  | [] => none

/-- Match `[0-9]*[A-Za-z]` against the front of the list, returning
the remainder on success (digits are not letters, so greedy matching
reduces to: maximal digit run, then one ASCII letter). -/
def matchCtlSeq : List Char → Option (List Char)
  | c :: cs =>
    if isAsciiLetter c then some cs
    else if c.isDigit then matchCtlSeq cs
    else none
  | [] => none

/-- `re.sub(r'\x1b\[[0-9;]*m', '', s)` (ptt.py line 312), with explicit
fuel so the recursion is structural: each step consumes at least one
character, so `fuel = length + 1` never runs out.  On a non-match the
scan advances one character, as `re.sub` does. -/
def removeAnsiColorFuel : Nat → List Char → List Char
  | 0, s => s
  | n + 1, '\x1b' :: '[' :: rest =>
    match matchColorSeq rest with
    | some tail => removeAnsiColorFuel n tail
    | none => '\x1b' :: removeAnsiColorFuel n ('[' :: rest)
  | n + 1, c :: cs => c :: removeAnsiColorFuel n cs
  | _ + 1, [] => []

def removeAnsiColor (s : List Char) : List Char :=
  removeAnsiColorFuel (s.length + 1) s

/-- `re.sub(r'\x1b\[[0-9]*[A-Za-z]', '', s)` (ptt.py line 313). -/
def removeAnsiCtlFuel : Nat → List Char → List Char
  | 0, s => s
  | n + 1, '\x1b' :: '[' :: rest =>
    match matchCtlSeq rest with
    | some tail => removeAnsiCtlFuel n tail
    | none => '\x1b' :: removeAnsiCtlFuel n ('[' :: rest)
  | n + 1, c :: cs => c :: removeAnsiCtlFuel n cs
  | _ + 1, [] => []

def removeAnsiCtl (s : List Char) : List Char :=
  removeAnsiCtlFuel (s.length + 1) s

/-- Sanitization applied to the selected output line
(ptt.py lines 307-314): strip, remove every `<|endoftext|>`, strip,
remove ANSI color sequences, remove ANSI control sequences, strip. -/
def sanitizeLine (line : List Char) : List Char :=
  let t0 := pyStrip line
  let t1 := pyStrip (removeEOT t0)
  pyStrip (removeAnsiCtl (removeAnsiColor t1))

/-- Transcript extraction from the engine's standard output
(ptt.py lines 304-314): `result.stdout.strip().split('\n')`, take
`lines[-1]`, sanitize. -/
def extract_transcription (stdout : List Char) : List Char :=
  sanitizeLine (lastSegment stdout)

example : extract_transcription "hello world<|endoftext|>".toList = "hello world".toList := by
  decide

example :
    extract_transcription "\x1b[32mhello world<|endoftext|>\x1b[0m".toList
      = "hello world".toList := by
  decide

example :
    extract_transcription "diag line 1\nsome progress\n hello world<|endoftext|> \n".toList
      = "hello world".toList := by
  decide

/-! ## Daemon state and environment

`PushToTalkDaemon.__init__` (ptt.py lines 51-55): `recording`,
`recording_process`, `temp_audio`, `recording_key_pressed`.  A process
handle is modelled by the index of the backend that spawned it; a temp
file by a numeric id.  A `Popen` handle is truthy in Python even after
the process exits, so `recordingProcess` stays `some _` until the code
itself assigns `None`. -/

structure DaemonState where
  recording : Bool
  recordingProcess : Option Nat
  tempAudio : Option Nat
  recordingKeyPressed : Bool
deriving DecidableEq, Repr

/-- Observable filesystem state: whether the captured temp file and
the resampled temp file currently exist in the recordings directory. -/
structure Fs where
  captured : Bool
  resampled : Bool
deriving DecidableEq, Repr

/-- Behaviour of one recording backend when spawned
(ptt.py lines 194-220): `Popen` raises `FileNotFoundError`, or the
process exits within the 0.2s grace period, or it is still alive
after it. -/
inductive SpawnOutcome
  | notFound
  | diesImmediately
  | survives
deriving DecidableEq, Repr

/-- Status of the last process handle assigned by the backend loop. -/
inductive ProcStatus
  | alive (idx : Nat)
  | dead (idx : Nat)
deriving DecidableEq, Repr

/-- What `start_recording` reported: whether a backend was accepted,
how many backends were attempted (spawn attempted or `which` failed),
and whether the "All recording methods failed" message was printed. -/
structure StartReport where
  started : Bool
  attempted : Nat
  reportedFailure : Bool
deriving DecidableEq, Repr

/-- The backend loop of `start_recording` (ptt.py lines 194-220).
`i` is the index of the head backend, `p` the last assigned process
handle (`self.recording_process`; a `FileNotFoundError` from `Popen`
leaves the previous handle in place).  Returns the final handle and
the number of backends attempted. -/
def tryBackends : Nat → List SpawnOutcome → Option ProcStatus → Option ProcStatus × Nat
  | _, [], p => (p, 0)
  | i, .notFound :: rest, p =>
    let (q, n) := tryBackends (i + 1) rest p
    (q, n + 1)
  | i, .diesImmediately :: rest, _ =>
    let (q, n) := tryBackends (i + 1) rest (some (.dead i))
    (q, n + 1)
  | i, .survives :: _, _ => (some (.alive i), 1)

/-- `PushToTalkDaemon.start_recording` (ptt.py lines 118-227).
`outcomes` lists the behaviour of each backend in the fallback list,
`newFile` is the id of the `NamedTemporaryFile` that would be
allocated.  Returns the updated daemon state, filesystem, and report. -/
def start_recording (outcomes : List SpawnOutcome) (newFile : Nat)
    (s : DaemonState) (fs : Fs) : DaemonState × Fs × StartReport :=
  if s.recording then (s, fs, ⟨false, 0, false⟩)
  else
    let s1 : DaemonState :=
      { s with recording := true, tempAudio := some newFile, recordingProcess := none }
    let fs1 : Fs := { fs with captured := true }
    let (p, n) := tryBackends 0 outcomes none
    match p with
    | some (.alive i) =>
      ({ s1 with recordingProcess := some i }, fs1, ⟨true, n, false⟩)
    | _ =>
      ({ s1 with recording := false, recordingProcess := none }, fs1, ⟨false, n, true⟩)

/-- Index of the first backend that survives the grace period. -/
def firstSurvivor : List SpawnOutcome → Option Nat
  | [] => none
  | .survives :: _ => some 0
  | .notFound :: rest => (firstSurvivor rest).map (· + 1)
  | .diesImmediately :: rest => (firstSurvivor rest).map (· + 1)

/-- A session "claims" a temp file as valid captured audio only while
the recording flag is set (the stop stage is gated on it). -/
def claimsValidCapture (s : DaemonState) : Prop :=
  s.recording = true ∧ s.tempAudio.isSome

instance (s : DaemonState) : Decidable (claimsValidCapture s) := by
  unfold claimsValidCapture
  infer_instance

/-! ## Output dispatch -/

/-- Success/failure of each external call made by `type_text` /
`copy_to_clipboard` (ptt.py lines 334-397): the `which` checks and the
actual injection/copy invocations. -/
structure DispatchEnv where
  ydotoolWhich : Bool
  ydotoolType : Bool
  xdotoolWhich : Bool
  xdotoolType : Bool
  wlcopyOk : Bool
  xclipOk : Bool
deriving DecidableEq, Repr

inductive DeliveryMethod
  | ydotool
  | xdotool
  | wlcopy
  | xclip
deriving DecidableEq, Repr

/-- Result of dispatch: one method delivered the text, or the text was
printed verbatim in the "Could not type or copy" message. -/
inductive DispatchResult
  | delivered (m : DeliveryMethod)
  | surfaced (text : List Char)
deriving DecidableEq, Repr

/-- Observable dispatch actions, in order.  `settle` is the 0.5s
`time.sleep` before `xdotool type` (ptt.py line 367), which runs only
once `which xdotool` has succeeded. -/
inductive DispatchAction
  | tryYdotool
  | settle
  | tryXdotool
  | tryWlcopy
  | tryXclip
  | printText
deriving DecidableEq, Repr

/-- `PushToTalkDaemon.try_ydotool` (ptt.py lines 347-358): true iff
`which ydotool` and `ydotool type` both succeed. -/
def try_ydotool (env : DispatchEnv) : Bool × List DispatchAction :=
  (env.ydotoolWhich && env.ydotoolType, [.tryYdotool])

/-- `PushToTalkDaemon.try_xdotool` (ptt.py lines 360-372): `which`
check, then a 0.5s settle sleep, then `xdotool type`. -/
def try_xdotool (env : DispatchEnv) : Bool × List DispatchAction :=
  if env.xdotoolWhich then (env.xdotoolType, [.settle, .tryXdotool])
  else (false, [.tryXdotool])

/-- `PushToTalkDaemon.copy_to_clipboard` (ptt.py lines 374-397):
`wl-copy`, then `xclip`, then print the text verbatim. -/
def copy_to_clipboard (env : DispatchEnv) (text : List Char) :
    DispatchResult × List DispatchAction :=
  if env.wlcopyOk then (.delivered .wlcopy, [.tryWlcopy])
  else if env.xclipOk then (.delivered .xclip, [.tryWlcopy, .tryXclip])
  else (.surfaced text, [.tryWlcopy, .tryXclip, .printText])

/-- `PushToTalkDaemon.type_text` (ptt.py lines 334-345): ydotool, then
xdotool, then clipboard fallback; each success short-circuits. -/
def type_text (env : DispatchEnv) (text : List Char) :
    DispatchResult × List DispatchAction :=
  let (ok1, a1) := try_ydotool env
  if ok1 then (.delivered .ydotool, a1)
  else
    let (ok2, a2) := try_xdotool env
    if ok2 then (.delivered .xdotool, a1 ++ a2)
    else
      let (r, a3) := copy_to_clipboard env text
      (r, a1 ++ a2 ++ a3)

/-! ## Stop-and-transcribe stage -/

/-- Behaviour of the `ffmpeg` resample invocation
(ptt.py lines 264-270): it returns with an exit code and an output
file size, or raises (`FileNotFoundError`, `TimeoutExpired`, ... —
all caught by the bare `except Exception`). -/
inductive ResampleBehavior
  | completes (returncode : Int) (outSize : Nat)
  | raises
deriving DecidableEq, Repr

/-- Behaviour of the whisper engine invocation
(ptt.py lines 296-301): completes with a standard-output string,
exceeds the 10s timeout, or raises some other exception. -/
inductive EngineBehavior
  | completes (stdout : List Char)
  | timesOut
  | raises
deriving DecidableEq, Repr

/-- Environment of one `stop_recording_and_transcribe` call.
`recorderExitsInTime` models whether `communicate(timeout=1)` returns
before its 1s timeout; `capturedSize` is `os.path.getsize` of the
captured file (the model assumes the file exists whenever
`tempAudio` is set, which `start_recording` guarantees). -/
structure StopEnv where
  recorderExitsInTime : Bool
  capturedSize : Nat
  resample : ResampleBehavior
  engine : EngineBehavior
  dispatch : DispatchEnv
deriving DecidableEq, Repr

/-- Python exceptions that can escape the modelled methods. -/
inductive PyErr
  | timeoutExpired
  | attributeError
deriving DecidableEq, Repr

/-- Which file was handed to the engine (`whisper_audio_file`). -/
inductive FileRef
  | captured
  | resampled
deriving DecidableEq, Repr

inductive StopOutcome
  | noop
  | noAudioCaptured
  | transcribed (t : List Char) (d : DispatchResult)
  | noSpeech
  | transcriptionFailed
  | transcriptionTimeout
  | engineError
deriving DecidableEq, Repr

structure StopReport where
  terminatedRecorder : Bool
  engineInvoked : Bool
  engineInput : Option FileRef
  outcome : StopOutcome
deriving DecidableEq, Repr

/-- `PushToTalkDaemon.stop_recording_and_transcribe`
(ptt.py lines 229-332), traced exactly:

* line 231: return if not recording or no process handle;
* line 234: clear the recording flag;
* lines 237-238: `terminate()` then `communicate(timeout=1)` — on
  timeout `subprocess.TimeoutExpired` propagates (nothing catches it);
* lines 243-247: if the captured file is under 1000 bytes, return —
  this happens before the `try/finally`, so nothing is deleted;
* lines 253-280: if the file is over 1000 bytes, create a resampled
  temp file and run `ffmpeg`; on exit code 0 with output over 100
  bytes use the resampled file, otherwise unlink it and keep the
  original; if the invocation raises, the bare `except` swallows it
  (leaving the just-created resampled file in place);
* lines 295-327: run whisper; parse/sanitize its stdout; a non-empty
  transcript is dispatched via `type_text`;
* lines 328-332 (`finally`): unlink the captured file and clear
  `temp_audio` — the resampled file is not touched here. -/
def stop_recording_and_transcribe (env : StopEnv) (s : DaemonState) (fs : Fs) :
    Except PyErr (DaemonState × Fs × StopReport) :=
  if s.recording = false ∨ s.recordingProcess = none then
    .ok (s, fs, ⟨false, false, none, .noop⟩)
  else
    let s1 : DaemonState := { s with recording := false }
    if env.recorderExitsInTime = false then .error .timeoutExpired
    else if s1.tempAudio.isSome ∧ env.capturedSize < 1000 then
      .ok (s1, fs, ⟨true, false, none, .noAudioCaptured⟩)
    else
      match s1.tempAudio with
      | none => .error .attributeError
      | some _ =>
        let (whisperInput, fs2) :=
          if 1000 < env.capturedSize then
            let fsr : Fs := { fs with resampled := true }
            match env.resample with
            | .raises => (FileRef.captured, fsr)
            | .completes rc outSize =>
              if rc = 0 ∧ 100 < outSize then (FileRef.resampled, fsr)
              else (FileRef.captured, { fsr with resampled := false })
          else (FileRef.captured, fs)
        let s2 : DaemonState := { s1 with tempAudio := none }
        let fsF : Fs := { fs2 with captured := false }
        match env.engine with
        | .timesOut => .ok (s2, fsF, ⟨true, true, some whisperInput, .transcriptionTimeout⟩)
        | .raises => .ok (s2, fsF, ⟨true, true, some whisperInput, .engineError⟩)
        | .completes stdout =>
          let lines := splitNl (pyStrip stdout)
          if lines.isEmpty then
            .ok (s2, fsF, ⟨true, true, some whisperInput, .transcriptionFailed⟩)
          else
            let t := sanitizeLine ((lines.getLast?).getD [])
            if t.isEmpty then
              .ok (s2, fsF, ⟨true, true, some whisperInput, .noSpeech⟩)
            else
              .ok (s2, fsF,
                ⟨true, true, some whisperInput,
                  .transcribed t (type_text env.dispatch t).1⟩)

/-! ## Keyboard resolution -/

/-- An input device as `find_keyboard` observes it: whether its
`EV_KEY` capabilities include `KEY_A`, and whether `'virtual'` occurs
in its lower-cased name.  `id` distinguishes devices. -/
structure Device where
  id : Nat
  hasKeyA : Bool
  nameHasVirtual : Bool
deriving DecidableEq, Repr

inductive FindErr
  | noKeyboardFound
  | eofError
deriving DecidableEq, Repr

/-- Digit-string to number (the core of Python `int()` on an already
stripped string; exotic forms such as underscores or non-ASCII digits
are treated as invalid). -/
def parseDigits (ds : List Char) : Option Nat :=
  if ds.isEmpty then none
  else if ds.all Char.isDigit then
    some (ds.foldl (fun a c => a * 10 + (c.toNat - 48)) 0)
  else none

/-- Python `int(choice)` for a stripped choice string. -/
def pyParseInt : List Char → Option Int
  | '-' :: ds => (parseDigits ds).map (fun n => -(n : Int))
  | '+' :: ds => (parseDigits ds).map (fun n => (n : Int))
  | ds => (parseDigits ds).map (fun n => (n : Int))

/-- `PushToTalkDaemon.find_keyboard` (ptt.py lines 73-116).
`choice` is what `input()` would produce: `none` when standard input
is at end of file — in that case `input()` raises `EOFError`, which
the `except (ValueError, IndexError)` clause does not catch, so it
escapes the method.  An invalid or out-of-range number falls through
to `keyboards[0]`. -/
def find_keyboard (devices : List Device) (choice : Option (List Char)) :
    Except FindErr Device :=
  let keyboards := devices.filter (fun d => d.hasKeyA && !d.nameHasVirtual)
  match keyboards with
  | [] =>
    match devices.filter (fun d => d.hasKeyA) with
    | [] => .error .noKeyboardFound
    | d :: _ => .ok d
  | [k] => .ok k
  | k :: _ :: _ =>
    match choice with
    | none => .error .eofError
    | some raw =>
      let c := pyStrip raw
      if c.isEmpty then .ok k
      else
        match pyParseInt c with
        | none => .ok k
        | some n =>
          let idx := n - 1
          if 0 ≤ idx ∧ idx < (keyboards.length : Int) then
            .ok (keyboards.getD idx.toNat k)
          else .ok k

/-! ## Main event loop -/

/-- One keyboard event as the loop classifies it
(ptt.py lines 402-416): a `KEY_RIGHTALT` transition with
`keystate == 1` (down), `== 2` (auto-repeat hold — matches neither
branch), `== 0` (up), or any other event.  Down events carry the
environment a triggered `start_recording` would see; up events carry
the environment a triggered stop stage would see. -/
inductive REvent
  | down (outcomes : List SpawnOutcome) (newFile : Nat)
  | hold
  | up (env : StopEnv)
  | other
deriving Repr

/-- One iteration of the `run` loop body (ptt.py lines 402-416).
Returns the new state, the filesystem, and how many times
`start_recording` was invoked.  Exceptions escaping the stop stage
propagate (the loop catches only `KeyboardInterrupt`). -/
def handleEvent (s : DaemonState) (fs : Fs) :
    REvent → Except PyErr (DaemonState × Fs × Nat)
  | .down outcomes f =>
    if s.recordingKeyPressed = false then
      let s1 : DaemonState := { s with recordingKeyPressed := true }
      let (s2, fs2, _) := start_recording outcomes f s1 fs
      .ok (s2, fs2, 1)
    else .ok (s, fs, 0)
  | .up env =>
    if s.recordingKeyPressed = true then
      let s1 : DaemonState := { s with recordingKeyPressed := false }
      match stop_recording_and_transcribe env s1 fs with
      | .error e => .error e
      | .ok (s2, fs2, _) => .ok (s2, fs2, 0)
    else .ok (s, fs, 0)
  | .hold => .ok (s, fs, 0)
  | .other => .ok (s, fs, 0)

/-- `PushToTalkDaemon.run` (ptt.py lines 399-422) over a finite event
prefix, accumulating the number of `start_recording` invocations. -/
def runLoop (s : DaemonState) (fs : Fs) :
    List REvent → Except PyErr (DaemonState × Fs × Nat)
  | [] => .ok (s, fs, 0)
  | e :: es =>
    match handleEvent s fs e with
    | .error err => .error err
    | .ok (s', fs', n) =>
      match runLoop s' fs' es with
      | .error err => .error err
      | .ok (s'', fs'', m) => .ok (s'', fs'', n + m)

deriving instance DecidableEq for Except

/-! ## Specification-side definitions

For refinement claims, a second definition written from the
specification's words, to be compared with the one embedded from the
source. -/

/-- From the claim/spec wording "strip any trailing end-of-text
sentinel token": remove the sentinel only when it is a suffix of the
line. -/
def removeTrailingEOT (line : List Char) : List Char :=
  if eotToken.isSuffixOf line then line.take (line.length - eotToken.length)
  else line

/-- The sanitization procedure exactly as the claim states it: last
non-empty output line, trailing sentinel removed, ANSI/control escape
sequences removed, whitespace trimmed (steps shared with the source
embedding except for the sentinel step). -/
def spec_transcript_trailing (stdout : List Char) : List Char :=
  let t0 := pyStrip (lastSegment stdout)
  let t1 := pyStrip (removeTrailingEOT t0)
  pyStrip (removeAnsiCtl (removeAnsiColor t1))

/-- The amended procedure: identical except that every occurrence of
the end-of-text sentinel is removed, not only a trailing one. -/
def spec_transcript_amended (stdout : List Char) : List Char :=
  let t0 := pyStrip (lastSegment stdout)
  let t1 := pyStrip (removeEOT t0)
  pyStrip (removeAnsiCtl (removeAnsiColor t1))

/-! ## Claim C6 -/

/-- Claim C6, counterexample: the claim says the transcript is
obtained by removing any *trailing* end-of-text sentinel token, but
the code (`transcription.replace('<|endoftext|>', '')`, ptt.py
line 308) removes every occurrence.  On the engine output
`"hi<|endoftext|>there"` the code produces `"hithere"` while the
claimed procedure keeps the non-trailing sentinel, so the claim as
stated is false. -/
theorem c6_counterexample :
    extract_transcription "hi<|endoftext|>there".toList = "hithere".toList ∧
    spec_transcript_trailing "hi<|endoftext|>there".toList
      = "hi<|endoftext|>there".toList ∧
    extract_transcription "hi<|endoftext|>there".toList
      ≠ spec_transcript_trailing "hi<|endoftext|>there".toList := by
  decide

/-- Claim C6 (amended): for every engine standard-output string, the
transcript is obtained by taking the last non-empty output line,
removing **every occurrence** of the end-of-text sentinel token,
removing ANSI/control escape sequences, and trimming leading and
trailing whitespace; in particular `"hello world<|endoftext|>"`,
plain or wrapped in ANSI color codes, sanitizes to
`"hello world"`. -/
theorem c6_transcript_sanitization :
    (∀ stdout : List Char,
      extract_transcription stdout = spec_transcript_amended stdout) ∧
    extract_transcription "hello world<|endoftext|>".toList
      = "hello world".toList ∧
    extract_transcription "\x1b[32mhello world<|endoftext|>\x1b[0m".toList
      = "hello world".toList ∧
    extract_transcription
        "whisper diagnostics\nmore diagnostics\n hello world<|endoftext|> ".toList
      = "hello world".toList :=
  ⟨fun _ => rfl, by decide, by decide, by decide⟩

/-! ## Claim C1 -/

/-- Claim C1: while the trigger key is already held
(`recording_key_pressed` is true), any flood of further key-down
(auto-repeat value 1) or key-hold (value 2) events for the trigger key
leaves the daemon state untouched and invokes `start_recording` zero
times — so a hold produces at most one recording start; and
`start_recording` itself is a no-op when a recording is already
active, so a second recording session can never be started over an
active one. -/
theorem c1_no_duplicate_start :
    (∀ (s : DaemonState) (fs : Fs) (es : List REvent),
      s.recordingKeyPressed = true →
      (∀ e ∈ es, e = REvent.hold ∨ ∃ o f, e = REvent.down o f) →
      runLoop s fs es = .ok (s, fs, 0)) ∧
    (∀ (outcomes : List SpawnOutcome) (f : Nat) (s : DaemonState) (fs : Fs),
      s.recording = true →
      start_recording outcomes f s fs = (s, fs, ⟨false, 0, false⟩)) := by
  constructor
  · intro s fs es hk hes
    induction es with
    | nil => rfl
    | cons e es ih =>
      have h1 : handleEvent s fs e = .ok (s, fs, 0) := by
        rcases hes e (List.mem_cons_self e es) with he | ⟨o, f, he⟩ <;> subst he
        · rfl
        · simp [handleEvent, hk]
      have h2 := ih (fun e he => hes e (List.mem_cons_of_mem _ he))
      simp [runLoop, h1, h2]
  · intro outcomes f s fs h
    simp [start_recording, h]

/-- Claim C1, witness: a held state absorbs a concrete flood of
repeated down/hold events with zero starts, and `start_recording` on
an actively recording state is the identity. -/
theorem c1_witness :
    runLoop ⟨true, some 0, some 0, true⟩ ⟨true, false⟩
        [.down [] 1, .hold, .down [.survives] 2]
      = .ok (⟨true, some 0, some 0, true⟩, ⟨true, false⟩, 0) ∧
    start_recording [.survives] 3 ⟨true, some 0, some 0, true⟩ ⟨true, false⟩
      = (⟨true, some 0, some 0, true⟩, ⟨true, false⟩, ⟨false, 0, false⟩) := by
  constructor
  · exact c1_no_duplicate_start.1 _ _ _ rfl (by
      intro e he
      simp only [List.mem_cons, List.not_mem_nil, or_false] at he
      rcases he with h | h | h
      · exact Or.inr ⟨[], 1, h⟩
      · exact Or.inl h
      · exact Or.inr ⟨[.survives], 2, h⟩)
  · exact c1_no_duplicate_start.2 _ _ _ _ rfl

/-! ## Claim C4 -/

/-- If some backend survives the grace period, the loop stops at the
first one: it returns an alive handle at that index and attempts
exactly `k + 1` backends. -/
theorem tryBackends_some (outcomes : List SpawnOutcome) (k : Nat)
    (h : firstSurvivor outcomes = some k) :
    ∀ (i : Nat) (p : Option ProcStatus),
      tryBackends i outcomes p = (some (.alive (i + k)), k + 1) := by
  induction outcomes generalizing k with
  | nil => simp [firstSurvivor] at h
  | cons o rest ih =>
    intro i p
    cases o with
    | survives =>
      simp [firstSurvivor] at h
      subst h
      simp [tryBackends]
    | notFound =>
      simp only [firstSurvivor, Option.map_eq_some'] at h
      obtain ⟨k', hk', rfl⟩ := h
      simp [tryBackends, ih k' hk' (i + 1) p]
      omega
    | diesImmediately =>
      simp only [firstSurvivor, Option.map_eq_some'] at h
      obtain ⟨k', hk', rfl⟩ := h
      simp [tryBackends, ih k' hk' (i + 1) (some (.dead i))]
      omega

/-- If no backend survives, the loop attempts all of them and the
final handle is never an alive process. -/
theorem tryBackends_none (outcomes : List SpawnOutcome)
    (h : firstSurvivor outcomes = none) :
    ∀ (i : Nat) (p : Option ProcStatus),
      (∀ j, p ≠ some (.alive j)) →
      (tryBackends i outcomes p).2 = outcomes.length ∧
      ∀ j, (tryBackends i outcomes p).1 ≠ some (.alive j) := by
  induction outcomes with
  | nil => intro i p hp; exact ⟨rfl, hp⟩
  | cons o rest ih =>
    intro i p hp
    cases o with
    | survives => simp [firstSurvivor] at h
    | notFound =>
      simp only [firstSurvivor, Option.map_eq_none'] at h
      have := ih h (i + 1) p hp
      simp [tryBackends]
      exact ⟨this.1, this.2⟩
    | diesImmediately =>
      simp only [firstSurvivor, Option.map_eq_none'] at h
      have := ih h (i + 1) (some (.dead i)) (by intro j; simp)
      simp [tryBackends]
      exact ⟨this.1, this.2⟩

/-- Claim C4: from a non-recording state, `start_recording` attempts
the backends in list order and accepts exactly the first one whose
process is still alive after the grace period: when the first
survivor has index `k`, the loop attempts exactly `k + 1` backends
(none after the acceptance), the accepted handle is backend `k`, and
recording becomes active.  When no backend survives, all of them are
attempted, the failure is reported, the process handle is cleared,
recording stays off, and the freshly allocated temp file is not
claimed as valid captured audio. -/
theorem c4_backend_fallback :
    ∀ (outcomes : List SpawnOutcome) (f : Nat) (s : DaemonState) (fs : Fs),
      s.recording = false →
      (∀ k, firstSurvivor outcomes = some k →
        start_recording outcomes f s fs =
          ({ s with
              recording := true, tempAudio := some f,
              recordingProcess := some k },
           { fs with captured := true }, ⟨true, k + 1, false⟩)) ∧
      (firstSurvivor outcomes = none →
        start_recording outcomes f s fs =
          ({ s with
              recording := false, tempAudio := some f,
              recordingProcess := none },
           { fs with captured := true }, ⟨false, outcomes.length, true⟩) ∧
        ¬ claimsValidCapture (start_recording outcomes f s fs).1) := by
  intro outcomes f s fs hrec
  constructor
  · intro k hk
    have ht := tryBackends_some outcomes k hk 0 none
    simp only [Nat.zero_add] at ht
    simp [start_recording, hrec, ht]
  · intro h0
    obtain ⟨h2, h1⟩ := tryBackends_none outcomes h0 0 none (by intro j; simp)
    rcases hqn : tryBackends 0 outcomes none with ⟨q, n⟩
    rw [hqn] at h2 h1
    simp only at h2 h1
    subst h2
    have hmain : start_recording outcomes f s fs =
        ({ s with
            recording := false, tempAudio := some f,
            recordingProcess := none },
         { fs with captured := true }, ⟨false, outcomes.length, true⟩) := by
      cases q with
      | none => simp [start_recording, hrec, hqn]
      | some ps =>
        cases ps with
        | alive j => exact absurd rfl (h1 j)
        | dead j => simp [start_recording, hrec, hqn]
    refine ⟨hmain, ?_⟩
    rw [hmain]
    simp [claimsValidCapture]

/-- Claim C4, witness: with backends behaving as (not found, dies
immediately, survives, not found) the third backend is accepted after
three attempts; with (not found, dies immediately) the recording is
aborted with both backends attempted, the failure reported, and no
valid capture claimed. -/
theorem c4_witness :
    start_recording [.notFound, .diesImmediately, .survives, .notFound] 7
        ⟨false, none, none, true⟩ ⟨false, false⟩
      = (⟨true, some 2, some 7, true⟩, ⟨true, false⟩, ⟨true, 3, false⟩) ∧
    start_recording [.notFound, .diesImmediately] 7
        ⟨false, none, none, true⟩ ⟨false, false⟩
      = (⟨false, none, some 7, true⟩, ⟨true, false⟩, ⟨false, 2, true⟩) ∧
    ¬ claimsValidCapture
        (start_recording [.notFound, .diesImmediately] 7
          ⟨false, none, none, true⟩ ⟨false, false⟩).1 := by
  refine ⟨?_, ?_, ?_⟩
  · exact (c4_backend_fallback [.notFound, .diesImmediately, .survives, .notFound] 7
      ⟨false, none, none, true⟩ ⟨false, false⟩ rfl).1 2 rfl
  · exact ((c4_backend_fallback [.notFound, .diesImmediately] 7
      ⟨false, none, none, true⟩ ⟨false, false⟩ rfl).2 rfl).1
  · exact ((c4_backend_fallback [.notFound, .diesImmediately] 7
      ⟨false, none, none, true⟩ ⟨false, false⟩ rfl).2 rfl).2

/-! ## Claim C5 -/

/-- Claim C5: for every session whose captured audio file is smaller
than 1000 bytes, the stop stage (given the recorder terminates within
the 1s wait) reaches the no-audio-captured outcome and returns with
the engine not invoked (`engineInvoked = false`, `engineInput = none`
in the report). -/
theorem c5_no_audio_short_circuit :
    ∀ (env : StopEnv) (s : DaemonState) (fs : Fs),
      s.recording = true → s.recordingProcess.isSome → s.tempAudio.isSome →
      env.recorderExitsInTime = true → env.capturedSize < 1000 →
      stop_recording_and_transcribe env s fs =
        .ok ({ s with recording := false }, fs,
          ⟨true, false, none, .noAudioCaptured⟩) := by
  intro env s fs h1 h2 h3 h4 h5
  have hp : ¬ s.recordingProcess = none := by
    simp [← Option.isSome_iff_ne_none, h2]
  simp [stop_recording_and_transcribe, h1, hp, h4, h3, h5]

/-- Claim C5, witness: a 200-byte capture short-circuits to
no-audio-captured. -/
theorem c5_witness :
    stop_recording_and_transcribe
        ⟨true, 200, .raises, .timesOut, ⟨true, true, true, true, true, true⟩⟩
        ⟨true, some 0, some 0, true⟩ ⟨true, false⟩
      = .ok (⟨false, some 0, some 0, true⟩, ⟨true, false⟩,
          ⟨true, false, none, .noAudioCaptured⟩) :=
  c5_no_audio_short_circuit
    ⟨true, 200, .raises, .timesOut, ⟨true, true, true, true, true, true⟩⟩
    ⟨true, some 0, some 0, true⟩ ⟨true, false⟩ rfl rfl rfl rfl (by decide)

/-! ## Claim C10 -/

/-- Claim C10: calling the stop stage while no recording is active
(recording flag false, or no recorder process handle — e.g. a release
before any start, or after every backend failed) is a complete no-op:
the state and filesystem are returned unchanged, no process is
terminated, and the engine is not invoked. -/
theorem c10_stop_noop :
    ∀ (env : StopEnv) (s : DaemonState) (fs : Fs),
      s.recording = false ∨ s.recordingProcess = none →
      stop_recording_and_transcribe env s fs =
        .ok (s, fs, ⟨false, false, none, .noop⟩) := by
  intro env s fs h
  unfold stop_recording_and_transcribe
  rw [if_pos h]

/-- Claim C10, witness: releasing the trigger in the state left by an
all-backends-failed start (flag off, no handle, temp file id still
recorded) is a no-op. -/
theorem c10_witness :
    stop_recording_and_transcribe
        ⟨true, 96000, .completes 0 5000, .timesOut,
          ⟨true, true, true, true, true, true⟩⟩
        ⟨false, none, some 5, false⟩ ⟨true, false⟩
      = .ok (⟨false, none, some 5, false⟩, ⟨true, false⟩,
          ⟨false, false, none, .noop⟩) :=
  c10_stop_noop
    ⟨true, 96000, .completes 0 5000, .timesOut,
      ⟨true, true, true, true, true, true⟩⟩
    ⟨false, none, some 5, false⟩ ⟨true, false⟩ (Or.inl rfl)

/-! ## Claim C2 (code bug) -/

/-- Claim C2 is violated by the code; this theorem evaluates the model
at the failing inputs.  First conjunct: with a 200-byte capture the
stop stage returns at the no-audio-captured exit (ptt.py line 247,
before the `try/finally`) with the captured temp file still on disk
(`Fs.captured = true`) and still referenced by `temp_audio`.  Second
conjunct: on a fully successful run (resample succeeds, engine
transcribes, ydotool delivers) the stage returns with the resampled
temp file still on disk (`Fs.resampled = true`) — the `finally` block
(ptt.py lines 328-332) unlinks only the captured file. -/
theorem c2_temp_file_leak :
    (stop_recording_and_transcribe
        ⟨true, 200, .raises, .timesOut, ⟨true, true, true, true, true, true⟩⟩
        ⟨true, some 0, some 0, true⟩ ⟨true, false⟩
      = .ok (⟨false, some 0, some 0, true⟩, ⟨true, false⟩,
          ⟨true, false, none, .noAudioCaptured⟩)) ∧
    (stop_recording_and_transcribe
        ⟨true, 96000, .completes 0 5000,
          .completes "hello world<|endoftext|>".toList,
          ⟨true, true, true, true, true, true⟩⟩
        ⟨true, some 0, some 0, true⟩ ⟨true, false⟩
      = .ok (⟨false, some 0, none, true⟩, ⟨false, true⟩,
          ⟨true, true, some .resampled,
            .transcribed "hello world".toList (.delivered .ydotool)⟩)) := by
  decide

/-! ## Claim C3 (code bug) -/

/-- Claim C3 is violated by the code; this theorem evaluates the model
at the failing input.  When the recorder process does not exit within
the 1-second `communicate(timeout=1)` wait (ptt.py line 238), no
forced termination is attempted: `subprocess.TimeoutExpired`
propagates out of the stop stage and out of the event loop, whose
only handler is for `KeyboardInterrupt` (ptt.py line 418), so the
daemon process terminates. -/
theorem c3_recorder_timeout_escapes :
    stop_recording_and_transcribe
        ⟨false, 96000, .raises, .timesOut, ⟨true, true, true, true, true, true⟩⟩
        ⟨true, some 0, some 0, true⟩ ⟨true, false⟩
      = .error .timeoutExpired ∧
    runLoop ⟨true, some 0, some 0, true⟩ ⟨true, false⟩
        [.up ⟨false, 96000, .raises, .timesOut,
          ⟨true, true, true, true, true, true⟩⟩]
      = .error .timeoutExpired := by
  decide

/-! ## Claim C7 -/

/-- The resample step failed: the `ffmpeg` invocation raised (caught
by the bare `except Exception`), or it completed with a non-zero exit
code or an output file of at most 100 bytes. -/
def resampleFailed (env : StopEnv) : Prop :=
  env.resample = .raises ∨
  ∃ rc sz, env.resample = .completes rc sz ∧ ¬(rc = 0 ∧ 100 < sz)

/-- Claim C7: whenever the resample step fails — converter raising
(missing binary, timeout, any exception), non-zero exit, or an output
file that is too small — the stop stage does not abort: it still
invokes the engine, and feeds it the originally captured,
unresampled audio file. -/
theorem c7_resample_failure_nonfatal :
    ∀ (env : StopEnv) (s : DaemonState) (fs : Fs),
      s.recording = true → s.recordingProcess.isSome → s.tempAudio.isSome →
      env.recorderExitsInTime = true → 1000 < env.capturedSize →
      resampleFailed env →
      ∃ s' fs' rep, stop_recording_and_transcribe env s fs = .ok (s', fs', rep) ∧
        rep.engineInvoked = true ∧ rep.engineInput = some .captured := by
  intro env s fs h1 h2 h3 h4 h5 h6
  have hp : ¬ s.recordingProcess = none := by
    simp [← Option.isSome_iff_ne_none, h2]
  obtain ⟨a, ha⟩ := Option.isSome_iff_exists.mp h3
  have hns : ¬ env.capturedSize < 1000 := by omega
  have hwi : (if 1000 < env.capturedSize then
      (match env.resample with
        | .raises => (FileRef.captured, { fs with resampled := true })
        | .completes rc outSize =>
          if rc = 0 ∧ 100 < outSize then
            (FileRef.resampled, { fs with resampled := true })
          else (FileRef.captured, { { fs with resampled := true } with resampled := false }))
      else (FileRef.captured, fs)).1 = FileRef.captured := by
    rw [if_pos h5]
    rcases h6 with h | ⟨rc, sz, heq, hcond⟩
    · rw [h]
    · rw [heq]
      simp only
      rw [if_neg hcond]
  simp only [stop_recording_and_transcribe, h1, hp, h4, ha, hns]
  simp only [Bool.true_eq_false, false_or, if_false, Option.isSome_some, true_and,
    if_neg hns, reduceIte]
  cases env.engine with
  | timesOut => exact ⟨_, _, _, rfl, rfl, congrArg some hwi⟩
  | raises => exact ⟨_, _, _, rfl, rfl, congrArg some hwi⟩
  | completes stdout =>
    by_cases hl : (splitNl (pyStrip stdout)).isEmpty
    · simp only [hl, if_true]
      exact ⟨_, _, _, rfl, rfl, congrArg some hwi⟩
    · simp only [hl, if_false]
      by_cases ht : (sanitizeLine (((splitNl (pyStrip stdout)).getLast?).getD [])).isEmpty
      · simp only [ht, if_true]
        exact ⟨_, _, _, rfl, rfl, congrArg some hwi⟩
      · simp only [ht, if_false]
        exact ⟨_, _, _, rfl, rfl, congrArg some hwi⟩

/-- Claim C7, witness: a 2000-byte capture with a converter that
raises still reaches the engine, fed the original captured file. -/
theorem c7_witness :
    ∃ s' fs' rep,
      stop_recording_and_transcribe
          ⟨true, 2000, .raises, .timesOut, ⟨true, true, true, true, true, true⟩⟩
          ⟨true, some 0, some 0, true⟩ ⟨true, false⟩
        = .ok (s', fs', rep) ∧
      rep.engineInvoked = true ∧ rep.engineInput = some .captured :=
  c7_resample_failure_nonfatal
    ⟨true, 2000, .raises, .timesOut, ⟨true, true, true, true, true, true⟩⟩
    ⟨true, some 0, some 0, true⟩ ⟨true, false⟩ rfl rfl rfl rfl (by decide)
    (Or.inl rfl)

/-! ## Claim C8 -/

/-- Claim C8: `type_text` attempts delivery in the fixed order
ydotool injection, xdotool injection (with the settle delay between
the availability check and the keystrokes), wl-copy clipboard, xclip
clipboard; the recorded action list stops at the first success, so
exactly one method delivers; and when all four fail the original text
is surfaced verbatim in the final message rather than lost. -/
theorem c8_dispatch_order :
    ∀ (env : DispatchEnv) (text : List Char),
      ((env.ydotoolWhich && env.ydotoolType) = true →
        type_text env text = (.delivered .ydotool, [.tryYdotool])) ∧
      ((env.ydotoolWhich && env.ydotoolType) = false →
        (env.xdotoolWhich && env.xdotoolType) = true →
        type_text env text
          = (.delivered .xdotool, [.tryYdotool, .settle, .tryXdotool])) ∧
      ((env.ydotoolWhich && env.ydotoolType) = false →
        (env.xdotoolWhich && env.xdotoolType) = false →
        env.wlcopyOk = true →
        (type_text env text).1 = .delivered .wlcopy ∧
        (type_text env text).2.getLast? = some .tryWlcopy) ∧
      ((env.ydotoolWhich && env.ydotoolType) = false →
        (env.xdotoolWhich && env.xdotoolType) = false →
        env.wlcopyOk = false → env.xclipOk = true →
        (type_text env text).1 = .delivered .xclip ∧
        (type_text env text).2.getLast? = some .tryXclip) ∧
      ((env.ydotoolWhich && env.ydotoolType) = false →
        (env.xdotoolWhich && env.xdotoolType) = false →
        env.wlcopyOk = false → env.xclipOk = false →
        type_text env text
          = (.surfaced text,
             [.tryYdotool]
               ++ (if env.xdotoolWhich then [.settle, .tryXdotool]
                   else [.tryXdotool])
               ++ [.tryWlcopy, .tryXclip, .printText])) := by
  intro env text
  obtain ⟨yw, yt, xw, xt, w, x⟩ := env
  cases yw <;> cases yt <;> cases xw <;> cases xt <;> cases w <;> cases x <;>
    simp [type_text, try_ydotool, try_xdotool, copy_to_clipboard]

/-- Claim C8, witness: with every backend failing, the text comes
back verbatim after all four attempts; with only xdotool working, it
delivers after the settle delay. -/
theorem c8_witness :
    type_text ⟨false, false, false, false, false, false⟩ "lorem ipsum".toList
      = (.surfaced "lorem ipsum".toList,
         [.tryYdotool, .tryXdotool, .tryWlcopy, .tryXclip, .printText]) ∧
    type_text ⟨true, false, true, true, true, true⟩ "lorem ipsum".toList
      = (.delivered .xdotool, [.tryYdotool, .settle, .tryXdotool]) := by
  constructor
  · exact (c8_dispatch_order ⟨false, false, false, false, false, false⟩
      "lorem ipsum".toList).2.2.2.2 rfl rfl rfl rfl
  · exact (c8_dispatch_order ⟨true, false, true, true, true, true⟩
      "lorem ipsum".toList).2.1 rfl rfl

/-! ## Claim C9 -/

/-- Claim C9, counterexample: the claim says batch/non-interactive
callers "where no choice can be read" get the default (the first
discovered keyboard), but when `input()` hits end of file it raises
`EOFError`, which the `except (ValueError, IndexError)` clause
(ptt.py line 103) does not catch — the resolver fails instead of
returning the default. -/
theorem c9_counterexample :
    find_keyboard [⟨1, true, false⟩, ⟨2, true, false⟩] none
      = .error .eofError ∧
    find_keyboard [⟨1, true, false⟩, ⟨2, true, false⟩] none
      ≠ .ok ⟨1, true, false⟩ := by
  decide

/-- Claim C9 (amended): when more than one physical keyboard is
discovered, the resolver defaults deterministically to the first
discovered keyboard and accepts an explicit numeric override; an
entered choice that is empty, non-numeric, or out of range yields the
default, but when no choice can be read at all (end of input) the
resolver raises an uncaught EOF error instead of returning the
default; when zero physical keyboards are found it falls back to
scanning all devices (including virtual ones) before failing with
no-keyboard-found. -/
theorem c9_keyboard_resolution :
    ∀ (devices : List Device) (raw : List Char),
      (∀ k l, devices.filter (fun d => d.hasKeyA && !d.nameHasVirtual) = k :: l →
        ((pyStrip raw).isEmpty ∨ pyParseInt (pyStrip raw) = none ∨
          ∃ n : Int, pyParseInt (pyStrip raw) = some n ∧
            ¬(0 ≤ n - 1 ∧ n - 1 < ((k :: l).length : Int))) →
        find_keyboard devices (some raw) = .ok k) ∧
      (∀ k l (n : Int),
        devices.filter (fun d => d.hasKeyA && !d.nameHasVirtual) = k :: l →
        pyParseInt (pyStrip raw) = some n →
        0 ≤ n - 1 → n - 1 < ((k :: l).length : Int) →
        find_keyboard devices (some raw) = .ok ((k :: l).getD (n - 1).toNat k)) ∧
      (∀ k k2 l,
        devices.filter (fun d => d.hasKeyA && !d.nameHasVirtual) = k :: k2 :: l →
        find_keyboard devices none = .error .eofError) ∧
      (devices.filter (fun d => d.hasKeyA && !d.nameHasVirtual) = [] →
        (devices.filter (fun d => d.hasKeyA) = [] →
          find_keyboard devices none = .error .noKeyboardFound) ∧
        (∀ d ds, devices.filter (fun d => d.hasKeyA) = d :: ds →
          find_keyboard devices none = .ok d)) := by
  intro devices raw
  refine ⟨?_, ?_, ?_, ?_⟩
  · intro k l hf hd
    cases l with
    | nil => simp [find_keyboard, hf]
    | cons k2 l' =>
      rcases hd with he | hn | ⟨n, hn, hrange⟩
      · simp [find_keyboard, hf, he]
      · by_cases he : (pyStrip raw).isEmpty <;> simp [find_keyboard, hf, he, hn]
      · by_cases he : (pyStrip raw).isEmpty
        · simp [find_keyboard, hf, he]
        · simp only [find_keyboard, hf, he, Bool.false_eq_true, if_false, hn]
          rw [if_neg]
          · simp at hrange ⊢
            omega
  · intro k l n hf hn h0 hlt
    cases l with
    | nil =>
      have hone : n = 1 := by
        simp at hlt
        omega
      subst hone
      simp [find_keyboard, hf]
    | cons k2 l' =>
      by_cases he : (pyStrip raw).isEmpty
      · rw [List.isEmpty_iff] at he
        rw [he] at hn
        simp [pyParseInt, parseDigits] at hn
      · simp only [find_keyboard, hf, he, Bool.false_eq_true, if_false, hn]
        rw [if_pos ⟨h0, by simpa using hlt⟩]
  · intro k k2 l hf
    simp [find_keyboard, hf]
  · intro hf
    constructor
    · intro hv
      simp [find_keyboard, hf, hv]
    · intro d ds hv
      simp [find_keyboard, hf, hv]

/-- Claim C9, witness: with two physical keyboards, an invalid
choice, an out-of-range choice, and an empty choice all give the
first keyboard; `"2"` selects the second; with no physical keyboard
the virtual device is used; with no keyboard-capable device at all
the resolver fails with no-keyboard-found. -/
theorem c9_witness :
    find_keyboard [⟨1, true, false⟩, ⟨2, true, false⟩] (some "junk".toList)
      = .ok ⟨1, true, false⟩ ∧
    find_keyboard [⟨1, true, false⟩, ⟨2, true, false⟩] (some "99".toList)
      = .ok ⟨1, true, false⟩ ∧
    find_keyboard [⟨1, true, false⟩, ⟨2, true, false⟩] (some " ".toList)
      = .ok ⟨1, true, false⟩ ∧
    find_keyboard [⟨1, true, false⟩, ⟨2, true, false⟩] (some " 2 ".toList)
      = .ok ⟨2, true, false⟩ ∧
    find_keyboard [⟨3, true, true⟩] (some "".toList) = .ok ⟨3, true, true⟩ ∧
    find_keyboard [⟨5, false, false⟩] (some "".toList)
      = .error .noKeyboardFound := by
  refine ⟨?_, ?_, ?_, ?_, ?_, ?_⟩
  · exact (c9_keyboard_resolution [⟨1, true, false⟩, ⟨2, true, false⟩]
      "junk".toList).1 ⟨1, true, false⟩ [⟨2, true, false⟩] rfl
      (Or.inr (Or.inl (by decide)))
  · exact (c9_keyboard_resolution [⟨1, true, false⟩, ⟨2, true, false⟩]
      "99".toList).1 ⟨1, true, false⟩ [⟨2, true, false⟩] rfl
      (Or.inr (Or.inr ⟨99, by decide, by decide⟩))
  · exact (c9_keyboard_resolution [⟨1, true, false⟩, ⟨2, true, false⟩]
      " ".toList).1 ⟨1, true, false⟩ [⟨2, true, false⟩] rfl
      (Or.inl (by decide))
  · exact (c9_keyboard_resolution [⟨1, true, false⟩, ⟨2, true, false⟩]
      " 2 ".toList).2.1 ⟨1, true, false⟩ [⟨2, true, false⟩] 2 rfl (by decide)
      (by decide) (by decide)
  · exact ((c9_keyboard_resolution [⟨3, true, true⟩] "".toList).2.2.2
      rfl).2 ⟨3, true, true⟩ [] rfl
  · exact ((c9_keyboard_resolution [⟨5, false, false⟩] "".toList).2.2.2
      rfl).1 rfl

end PTT
